import Mathlib

/-!
Verification of the Content-Calendar-Planly client.

Shallow embedding of the dashboard component
(`src/client/src/components/ContentPlannerApp.tsx`), the client-side route
table (`App.tsx` / `Router`) and their surrounding effect flows.  Dates are
modelled as `Int` epoch-millisecond timestamps; JavaScript object lookups by
string key are modelled by explicit case splits that return `false` on keys
absent from the object (an absent key yields `undefined`, which is falsy in
the boolean context in which the code uses it).
-/

namespace Planly

/-- ContentItem: the single domain record (from `@shared/schema`, as used by
the dashboard).  `platform` and `status` are strings at runtime: the TS code
casts them (`item.platform as keyof typeof filters.platforms`) rather than
validating them. -/
structure ContentItem where
  id : String
  title : String
  description : Option String
  platform : String
  scheduledDate : Int
  status : String
  createdAt : Int
  updatedAt : Int
  deriving Repr, DecidableEq

/-- Platform filter flags, one boolean per known platform
(`filters.platforms` in the component state). -/
structure PlatformFilters where
  social : Bool
  email : Bool
  blog : Bool
  deriving Repr, DecidableEq

/-- Status filter flags, one boolean per known status
(`filters.statuses` in the component state). -/
structure StatusFilters where
  draft : Bool
  scheduled : Bool
  posted : Bool
  deriving Repr, DecidableEq

/-- Filter state of the dashboard (`filters` in the component state). -/
structure Filters where
  platforms : PlatformFilters
  statuses : StatusFilters
  deriving Repr, DecidableEq

/-- Initial filter state (lines 43-46 of the component): every flag true. -/
def initialFilters : Filters :=
  { platforms := { social := true, email := true, blog := true }
    statuses := { draft := true, scheduled := true, posted := true } }

/-- Lookup `filters.platforms[key]` for a string key: a key outside
`{social, email, blog}` reads an absent property, i.e. `undefined`,
which is falsy. -/
def platformFlag (f : PlatformFilters) (key : String) : Bool :=
  if key = "social" then f.social
  else if key = "email" then f.email
  else if key = "blog" then f.blog
  else false

/-- Lookup `filters.statuses[key]` for a string key: a key outside
`{draft, scheduled, posted}` reads an absent property, i.e. `undefined`,
which is falsy. -/
def statusFlag (f : StatusFilters) (key : String) : Bool :=
  if key = "draft" then f.draft
  else if key = "scheduled" then f.scheduled
  else if key = "posted" then f.posted
  else false

/-- Function `filteredItems` (lines 122-125): keep the items whose platform flag and
status flag are both truthy. -/
def filteredItems (filters : Filters) (contentItems : List ContentItem) :
    List ContentItem :=
  contentItems.filter fun item =>
    platformFlag filters.platforms item.platform &&
    statusFlag filters.statuses item.status

/-- CalendarEvent (lines 26-32): the shape handed to the calendar widget.
The source field `end` is a reserved word in Lean, rendered here as
`endDate`. -/
structure CalendarEvent where
  id : String
  title : String
  start : Int
  endDate : Int
  resource : ContentItem
  deriving Repr, DecidableEq

/-- the per-item event constructor inside `events` (lines 128-134):
`new Date(item.scheduledDate)` on a date value reproduces the same
timestamp, used for both `start` and `end`. -/
def toCalendarEvent (item : ContentItem) : CalendarEvent :=
  { id := item.id
    title := item.title
    start := item.scheduledDate
    endDate := item.scheduledDate
    resource := item }

/-- Function `events` (lines 128-134): map the filtered items into calendar events. -/
def events (filters : Filters) (contentItems : List ContentItem) :
    List CalendarEvent :=
  (filteredItems filters contentItems).map toCalendarEvent

/-- the enumerated platform set of the data model. -/
def enumPlatforms : List String := ["social", "email", "blog"]

/-- the enumerated status set of the data model. -/
def enumStatuses : List String := ["draft", "scheduled", "posted"]

/-- an authenticated user as the component sees it (only its presence
matters to the render gate; `email` is only displayed). -/
structure UserT where
  email : Option String
  deriving Repr, DecidableEq

/-- the three top-level views the component function can return
(lines 72-102 and 188-507): the sign-in prompt, the loading spinner,
or the dashboard (sidebar, filters, calendar). -/
inductive RenderedView where
  | signInPrompt
  | loadingSpinner
  | dashboard
  deriving Repr, DecidableEq

/-- the top-level early-return structure of `ContentPlannerApp`:
`if (!loading && !user) return signInPrompt; if (loading) return spinner;`
then the dashboard markup. -/
def render (loading : Bool) (user : Option UserT) : RenderedView :=
  if !loading && user.isNone then RenderedView.signInPrompt
  else if loading then RenderedView.loadingSpinner
  else RenderedView.dashboard

/-- the kind of a toast notification (`toast.success` / `toast.error`). -/
inductive ToastKind where
  | success
  | error
  deriving Repr, DecidableEq

/-- Effects the dashboard handlers can issue: an HTTP
request through `apiRequest`, a call to the auth provider `signOut`, a
cache invalidation (`queryClient.invalidateQueries`), a direct cache write
(`queryClient.setQueryData` — never used by this code), and a toast. -/
inductive Action where
  | apiRequest (method : String) (url : String)
  | signOutCall
  | invalidateQueries (queryKey : String)
  | setQueryData (queryKey : String)
  | toast (kind : ToastKind) (message : String)
  deriving Repr, DecidableEq

/-- Flow of `deleteMutation` (lines 110-119) run on an id: the mutation function
issues one DELETE request; on success the `/api/content` key is invalidated
and a success toast shown; on error a single error toast is shown. -/
def deleteFlow (id : String) (ok : Bool) : List Action :=
  Action.apiRequest "DELETE" ("/api/content/" ++ id) ::
    (if ok then
      [Action.invalidateQueries "/api/content",
       Action.toast ToastKind.success "Content item deleted successfully"]
    else
      [Action.toast ToastKind.error "Failed to delete content item"])

/-- Flow of `handleSignOut` (lines 48-55): it awaits `signOut()`, then a success toast;
the catch branch shows a single error toast. -/
def handleSignOut (ok : Bool) : List Action :=
  Action.signOutCall ::
    (if ok then [Action.toast ToastKind.success "Signed out successfully"]
     else [Action.toast ToastKind.error "Failed to sign out"])

/-- count of toast actions in an effect list. -/
def toastCount (actions : List Action) : Nat :=
  (actions.filter fun a => match a with
    | Action.toast _ _ => true
    | _ => false).length

/-- the cache keys an effect list invalidates, in order. -/
def invalidatedKeys (actions : List Action) : List String :=
  actions.filterMap fun a => match a with
    | Action.invalidateQueries k => some k
    | _ => none

/-- count of HTTP requests in an effect list. -/
def requestCount (actions : List Action) : Nat :=
  (actions.filter fun a => match a with
    | Action.apiRequest _ _ => true
    | _ => false).length

/-- count of auth sign-out calls in an effect list. -/
def signOutCallCount (actions : List Action) : Nat :=
  (actions.filter fun a => match a with
    | Action.signOutCall => true
    | _ => false).length

/-- count of direct cache writes in an effect list. -/
def setQueryDataCount (actions : List Action) : Nat :=
  (actions.filter fun a => match a with
    | Action.setQueryData _ => true
    | _ => false).length

/-- the pages of the client-side route table (`App.tsx`). -/
inductive Page where
  | landing
  | contentPlanner
  | analytics
  | bulkScheduling
  | subscription
  | settings
  | notFound
  deriving Repr, DecidableEq

/-- the `Router` component (`App.tsx`, lines 16-28): a `wouter` `Switch`
tries its `Route`s in order and renders the first whose path matches; the
six parameterless routes are exact paths and the final `Route` without a
path matches anything, yielding the not-found page. -/
def matchRoute (path : String) : Page :=
  if path = "/" then Page.landing
  else if path = "/app" then Page.contentPlanner
  else if path = "/analytics" then Page.analytics
  else if path = "/bulk-scheduling" then Page.bulkScheduling
  else if path = "/subscription" then Page.subscription
  else if path = "/settings" then Page.settings
  else Page.notFound

/-- an AI suggestion as consumed by `handleSuggestionUse` (it reads only
`suggestion.title` and `suggestion.platform`; the parameter is untyped
(`any`) in the source, so the platform string is unconstrained). -/
structure Suggestion where
  title : String
  platform : String
  deriving Repr, DecidableEq

/-- Function `handleSuggestionUse` (lines 57-69): it builds the content item installed
as `editingItem` before the modal opens; `now` stands for `new Date()`. -/
def suggestionToItem (suggestion : Suggestion) (now : Int) : ContentItem :=
  { id := ""
    title := suggestion.title
    description := none
    platform := suggestion.platform
    scheduledDate := now
    status := "draft"
    createdAt := now
    updatedAt := now }

/-- the view options offered by the view buttons (line 424):
`([month, week, day] as const)`. -/
def viewOptions : List String := ["month", "week", "day"]

/-- events that can change the `view` state: a click on one of the three
view buttons (lines 424-435), or the calendar `onView` callback handing
back an arbitrary library view string (lines 464-468). -/
inductive ViewEvent where
  | buttonClick (i : Fin 3)
  | onViewCallback (v : String)

/-- Step function of the `view` state: a button click stores the option of
that button; `onView` stores its argument only when it is one of
`month`, `week`, `day`, and otherwise leaves the state unchanged. -/
def viewStep (current : String) (e : ViewEvent) : String :=
  match e with
  | ViewEvent.buttonClick i => viewOptions.get (Fin.cast (by decide) i)
  | ViewEvent.onViewCallback v =>
      if v = "month" || v = "week" || v = "day" then v else current

/-- the `view` state after a sequence of events, starting from the
initial state month (line 42). -/
def runViewEvents (es : List ViewEvent) : String :=
  es.foldl viewStep "month"

/-- a platform key outside the enumerated set reads an absent property of
the platform filter object, so its flag is falsy. -/
theorem platformFlag_false_of_unknown (f : PlatformFilters) (p : String)
    (h : p ∉ enumPlatforms) : platformFlag f p = false := by
  simp only [enumPlatforms, List.mem_cons, List.not_mem_nil, or_false,
    not_or] at h
  simp [platformFlag, h.1, h.2.1, h.2.2]

/-- a status key outside the enumerated set reads an absent property of
the status filter object, so its flag is falsy. -/
theorem statusFlag_false_of_unknown (f : StatusFilters) (s : String)
    (h : s ∉ enumStatuses) : statusFlag f s = false := by
  simp only [enumStatuses, List.mem_cons, List.not_mem_nil, or_false,
    not_or] at h
  simp [statusFlag, h.1, h.2.1, h.2.2]

/-- a truthy platform flag forces the key into the enumerated set. -/
theorem mem_enumPlatforms_of_platformFlag (f : PlatformFilters) (p : String)
    (h : platformFlag f p = true) : p ∈ enumPlatforms := by
  by_contra hc
  rw [platformFlag_false_of_unknown f p hc] at h
  exact Bool.false_ne_true h

/-- a truthy status flag forces the key into the enumerated set. -/
theorem mem_enumStatuses_of_statusFlag (f : StatusFilters) (s : String)
    (h : statusFlag f s = true) : s ∈ enumStatuses := by
  by_contra hc
  rw [statusFlag_false_of_unknown f s hc] at h
  exact Bool.false_ne_true h

/-- with every flag of the initial filter state set, a key in the
enumerated platform set has a true flag. -/
theorem platformFlag_initial_of_mem (p : String) (h : p ∈ enumPlatforms) :
    platformFlag initialFilters.platforms p = true := by
  simp only [enumPlatforms, List.mem_cons, List.not_mem_nil, or_false] at h
  rcases h with h | h | h <;> subst h <;> rfl

/-- with every flag of the initial filter state set, a key in the
enumerated status set has a true flag. -/
theorem statusFlag_initial_of_mem (s : String) (h : s ∈ enumStatuses) :
    statusFlag initialFilters.statuses s = true := by
  simp only [enumStatuses, List.mem_cons, List.not_mem_nil, or_false] at h
  rcases h with h | h | h <;> subst h <;> rfl

/-- C1: for every fetched list and every filter state, the filtered list
contains exactly the items whose platform flag and status flag are both
true; in particular, when the flag of a platform is false, every item of
that platform is absent from the filtered list. -/
theorem c1_filter_exact (f : Filters) (contentItems : List ContentItem) :
    (∀ item : ContentItem,
      item ∈ filteredItems f contentItems ↔
        item ∈ contentItems ∧
        platformFlag f.platforms item.platform = true ∧
        statusFlag f.statuses item.status = true) ∧
    (∀ p : String, platformFlag f.platforms p = false →
      ∀ item : ContentItem, item.platform = p →
        item ∉ filteredItems f contentItems) := by
  constructor
  · intro item
    simp [filteredItems, List.mem_filter, and_assoc]
  · intro p hp item hplat hmem
    rw [filteredItems, List.mem_filter] at hmem
    rw [hplat, hp] at hmem
    simp at hmem

/-- C1 witness: with the social flag cleared, a social item does not pass
the filter. -/
theorem c1_filter_exact_witness :
    ({ id := "a", title := "post", description := none, platform := "social",
       scheduledDate := 0, status := "draft", createdAt := 0,
       updatedAt := 0 } : ContentItem) ∉
      filteredItems
        { platforms := { social := false, email := true, blog := true }
          statuses := { draft := true, scheduled := true, posted := true } }
        [{ id := "a", title := "post", description := none,
           platform := "social", scheduledDate := 0, status := "draft",
           createdAt := 0, updatedAt := 0 }] :=
  (c1_filter_exact
    { platforms := { social := false, email := true, blog := true }
      statuses := { draft := true, scheduled := true, posted := true } }
    [{ id := "a", title := "post", description := none, platform := "social",
       scheduledDate := 0, status := "draft", createdAt := 0,
       updatedAt := 0 }]).2 "social" (by decide) _ rfl

/-- C2: the events list has one event per filtered item in the same order,
and each event copies the item id and title, uses the scheduled date as
both start and end (zero duration), and attaches the item as resource. -/
theorem c2_events_shape (f : Filters) (contentItems : List ContentItem) :
    (events f contentItems).length =
      (filteredItems f contentItems).length ∧
    (∀ i : Nat,
      (events f contentItems)[i]? =
        ((filteredItems f contentItems)[i]?).map toCalendarEvent) ∧
    (∀ item : ContentItem,
      (toCalendarEvent item).id = item.id ∧
      (toCalendarEvent item).title = item.title ∧
      (toCalendarEvent item).start = item.scheduledDate ∧
      (toCalendarEvent item).endDate = item.scheduledDate ∧
      (toCalendarEvent item).resource = item) := by
  refine ⟨?_, ?_, ?_⟩
  · simp [events]
  · intro i
    simp [events, List.getElem?_map]
  · intro item
    simp [toCalendarEvent]

/-- C3: with authentication resolved and no user, the component returns the
sign-in prompt; the dashboard is rendered only when a user is present. -/
theorem c3_auth_gate (loading : Bool) (user : Option UserT) :
    (loading = false → user = none →
      render loading user = RenderedView.signInPrompt) ∧
    (render loading user = RenderedView.dashboard → user ≠ none) := by
  constructor
  · rintro rfl rfl
    rfl
  · intro h
    cases user with
    | none =>
        cases loading with
        | false => simp [render] at h
        | true => simp [render] at h
    | some u => simp

/-- C3 witness: at the concrete state loading false, user none, the
component returns the sign-in prompt. -/
theorem c3_auth_gate_witness :
    render false none = RenderedView.signInPrompt :=
  (c3_auth_gate false none).1 rfl rfl

/-- C4: each failure path issues exactly one toast (an error toast), does
not retry the failed call (one request, one sign-out call in the whole
flow), and on a failed delete invalidates no cache key and writes no cache
entry. -/
theorem c4_error_paths (id : String) :
    (toastCount (deleteFlow id false) = 1 ∧
     Action.toast ToastKind.error "Failed to delete content item" ∈
       deleteFlow id false ∧
     requestCount (deleteFlow id false) = 1 ∧
     invalidatedKeys (deleteFlow id false) = [] ∧
     setQueryDataCount (deleteFlow id false) = 0) ∧
    (toastCount (handleSignOut false) = 1 ∧
     Action.toast ToastKind.error "Failed to sign out" ∈
       handleSignOut false ∧
     signOutCallCount (handleSignOut false) = 1) := by
  refine ⟨⟨?_, ?_, ?_, ?_, ?_⟩, ?_, ?_, ?_⟩ <;>
    simp [deleteFlow, handleSignOut, toastCount, requestCount,
      invalidatedKeys, setQueryDataCount, signOutCallCount]

/-- C5: a successful delete invalidates exactly the `/api/content` cache
key (no other key), and performs no direct edit of the cached list. -/
theorem c5_success_invalidation (id : String) :
    invalidatedKeys (deleteFlow id true) = ["/api/content"] ∧
    setQueryDataCount (deleteFlow id true) = 0 := by
  constructor <;> simp [deleteFlow, invalidatedKeys, setQueryDataCount]

/-- C6: the route table maps the six fixed paths to their pages, and every
other path resolves to the not-found page. -/
theorem c6_route_table (path : String) :
    matchRoute "/" = Page.landing ∧
    matchRoute "/app" = Page.contentPlanner ∧
    matchRoute "/analytics" = Page.analytics ∧
    matchRoute "/bulk-scheduling" = Page.bulkScheduling ∧
    matchRoute "/subscription" = Page.subscription ∧
    matchRoute "/settings" = Page.settings ∧
    (path ∉ ["/", "/app", "/analytics", "/bulk-scheduling", "/subscription",
        "/settings"] →
      matchRoute path = Page.notFound) := by
  refine ⟨rfl, rfl, rfl, rfl, rfl, rfl, ?_⟩
  intro h
  simp only [List.mem_cons, List.not_mem_nil, or_false, not_or] at h
  obtain ⟨h1, h2, h3, h4, h5, h6⟩ := h
  simp [matchRoute, h1, h2, h3, h4, h5, h6]

/-- C6 witness: an unknown path resolves to the not-found page. -/
theorem c6_route_table_witness : matchRoute "/nope" = Page.notFound :=
  (c6_route_table "/nope").2.2.2.2.2.2 (by decide)

/-- C7 counterexample: `handleSuggestionUse` copies the platform string of
a suggestion into the content item it hands to the editing modal without
any membership check, so the client handles an item whose platform lies
outside the enumerated set. -/
theorem c7_counterexample :
    (suggestionToItem { title := "Try a trend", platform := "tiktok" }
      0).platform = "tiktok" ∧
    "tiktok" ∉ enumPlatforms ∧
    (suggestionToItem { title := "Try a trend", platform := "tiktok" }
      0).status = "draft" := by
  refine ⟨rfl, ?_, rfl⟩
  decide

/-- C7 amended: the filter enforces that every rendered item has platform
and status in the enumerated sets, and enforces no other invariant (any
item with an enumerated platform and status passes the all-true initial
filter, whatever its other fields are); `handleSuggestionUse` fixes the
status of the item it builds to draft but copies the platform of the
suggestion unchecked. -/
theorem c7_amended (f : Filters) (contentItems : List ContentItem)
    (item : ContentItem) :
    (item ∈ filteredItems f contentItems →
      item.platform ∈ enumPlatforms ∧ item.status ∈ enumStatuses) ∧
    (item.platform ∈ enumPlatforms → item.status ∈ enumStatuses →
      item ∈ filteredItems initialFilters [item]) ∧
    (∀ (s : Suggestion) (now : Int),
      (suggestionToItem s now).status = "draft" ∧
      (suggestionToItem s now).platform = s.platform) := by
  refine ⟨?_, ?_, ?_⟩
  · intro hmem
    rw [filteredItems, List.mem_filter] at hmem
    have hb := hmem.2
    rw [Bool.and_eq_true] at hb
    exact ⟨mem_enumPlatforms_of_platformFlag _ _ hb.1,
      mem_enumStatuses_of_statusFlag _ _ hb.2⟩
  · intro hp hs
    rw [filteredItems, List.mem_filter]
    refine ⟨List.mem_singleton_self item, ?_⟩
    rw [platformFlag_initial_of_mem _ hp, statusFlag_initial_of_mem _ hs]
    rfl
  · intro s now
    exact ⟨rfl, rfl⟩

/-- C7 amended witness: a concrete item with an enumerated platform and
status is inside the enumerated sets when filtered in, and passes the
all-true initial filter. -/
theorem c7_amended_witness :
    ({ id := "b", title := "news", description := none, platform := "blog",
       scheduledDate := 5, status := "posted", createdAt := 1,
       updatedAt := 2 } : ContentItem) ∈
      filteredItems initialFilters
        [{ id := "b", title := "news", description := none,
           platform := "blog", scheduledDate := 5, status := "posted",
           createdAt := 1, updatedAt := 2 }] :=
  (c7_amended initialFilters []
    { id := "b", title := "news", description := none, platform := "blog",
      scheduledDate := 5, status := "posted", createdAt := 1,
      updatedAt := 2 }).2.1 (by decide) (by decide)

/-- C8: an item whose platform or status lies outside its enumerated set is
excluded from the filtered list under every filter state, because the
lookup of an unknown key in the boolean filter maps is falsy. -/
theorem c8_unknown_keys_excluded (f : Filters)
    (contentItems : List ContentItem) (item : ContentItem)
    (h : item.platform ∉ enumPlatforms ∨ item.status ∉ enumStatuses) :
    item ∉ filteredItems f contentItems := by
  intro hmem
  rw [filteredItems, List.mem_filter] at hmem
  have hb := hmem.2
  rw [Bool.and_eq_true] at hb
  rcases h with h | h
  · rw [platformFlag_false_of_unknown f.platforms _ h] at hb
    exact Bool.false_ne_true hb.1
  · rw [statusFlag_false_of_unknown f.statuses _ h] at hb
    exact Bool.false_ne_true hb.2

/-- C8 witness: an item with the unknown platform tiktok is excluded even
under the all-true initial filter state. -/
theorem c8_unknown_keys_excluded_witness :
    ({ id := "c", title := "clip", description := none,
       platform := "tiktok", scheduledDate := 0, status := "draft",
       createdAt := 0, updatedAt := 0 } : ContentItem) ∉
      filteredItems initialFilters
        [{ id := "c", title := "clip", description := none,
           platform := "tiktok", scheduledDate := 0, status := "draft",
           createdAt := 0, updatedAt := 0 }] :=
  c8_unknown_keys_excluded initialFilters
    [{ id := "c", title := "clip", description := none,
       platform := "tiktok", scheduledDate := 0, status := "draft",
       createdAt := 0, updatedAt := 0 }]
    { id := "c", title := "clip", description := none, platform := "tiktok",
      scheduledDate := 0, status := "draft", createdAt := 0, updatedAt := 0 }
    (Or.inl (by decide))

/-- C9: the initial filter state has every flag true, and filtering with it
is the identity on every list whose items have platforms and statuses in
the enumerated sets. -/
theorem c9_all_true_identity (contentItems : List ContentItem)
    (h : ∀ item ∈ contentItems,
      item.platform ∈ enumPlatforms ∧ item.status ∈ enumStatuses) :
    initialFilters =
      { platforms := { social := true, email := true, blog := true }
        statuses := { draft := true, scheduled := true, posted := true } } ∧
    filteredItems initialFilters contentItems = contentItems := by
  refine ⟨rfl, ?_⟩
  rw [filteredItems, List.filter_eq_self]
  intro item hmem
  obtain ⟨hp, hs⟩ := h item hmem
  rw [platformFlag_initial_of_mem _ hp, statusFlag_initial_of_mem _ hs]
  rfl

/-- C9 witness: a concrete two-item list with enumerated platforms and
statuses is returned unchanged by the initial filter. -/
theorem c9_all_true_identity_witness :
    filteredItems initialFilters
      [{ id := "d", title := "tweet", description := none,
         platform := "social", scheduledDate := 3, status := "scheduled",
         createdAt := 0, updatedAt := 0 },
       { id := "e", title := "letter", description := some "weekly",
         platform := "email", scheduledDate := 4, status := "draft",
         createdAt := 0, updatedAt := 0 }] =
      [{ id := "d", title := "tweet", description := none,
         platform := "social", scheduledDate := 3, status := "scheduled",
         createdAt := 0, updatedAt := 0 },
       { id := "e", title := "letter", description := some "weekly",
         platform := "email", scheduledDate := 4, status := "draft",
         createdAt := 0, updatedAt := 0 }] :=
  (c9_all_true_identity
    [{ id := "d", title := "tweet", description := none,
       platform := "social", scheduledDate := 3, status := "scheduled",
       createdAt := 0, updatedAt := 0 },
     { id := "e", title := "letter", description := some "weekly",
       platform := "email", scheduledDate := 4, status := "draft",
       createdAt := 0, updatedAt := 0 }] (by decide)).2

/-- a view in the option set stays in the option set under every event. -/
theorem viewStep_mem (cur : String) (e : ViewEvent)
    (h : cur ∈ viewOptions) : viewStep cur e ∈ viewOptions := by
  cases e with
  | buttonClick i => exact List.get_mem _ _ _
  | onViewCallback v =>
      rw [viewStep]
      split
      · rename_i hv
        rw [Bool.or_eq_true, Bool.or_eq_true] at hv
        simp only [decide_eq_true_eq] at hv
        rcases hv with (hv | hv) | hv <;> subst hv <;> decide
      · exact h

/-- folding the step function from a view in the option set stays in the
option set. -/
theorem foldl_viewStep_mem (es : List ViewEvent) (cur : String)
    (h : cur ∈ viewOptions) : es.foldl viewStep cur ∈ viewOptions := by
  induction es generalizing cur with
  | nil => simpa using h
  | cons e rest ih => exact ih _ (viewStep_mem cur e h)

/-- C10: the view state is initialized to month, and after every sequence
of button clicks and `onView` callbacks it remains one of month, week,
day. -/
theorem c10_view_invariant :
    runViewEvents [] = "month" ∧
    ∀ es : List ViewEvent, runViewEvents es ∈ viewOptions := by
  refine ⟨rfl, ?_⟩
  intro es
  exact foldl_viewStep_mem es "month" (by decide)

end Planly
